import Mathlib

/-!
Shallow embedding of `src/copyfile.c` (libcopyfile): the per-operation state
record, the accessor API, the preamble, the descriptor-mode adoption step,
the data-transfer loop, the error-recovery coordinator, and the path-mode
open negotiation, together with theorems settling the spec claims.

Syscall behaviour (read/write/ftruncate responses) is modelled by an oracle:
a list of per-syscall responses that the transfer machine consumes one event
per syscall.  Filesystems are modelled as association lists from paths to
byte lists; every modelled file is a regular file (the claims under study
only exercise regular-file sources), so the directory branch of
`copyfile_open` and the EISDIR/EACCES retry branches (which need directories
or permission bits to fire) are outside the model and noted where omitted.
-/

/-- The flag bitmask `copyfile_flags_t`.  The header `copyfile.h` defining the
bit positions is not part of the sources; since every use in `copyfile.c`
only tests individual bits, the mask is modelled as a record of named bits
(bit positions are immaterial to the claims). -/
structure copyfile_flags_t where
  data : Bool := false
  stat : Bool := false
  excl : Bool := false
  unlink : Bool := false
  debug : Bool := false
deriving DecidableEq

/-- `struct _copyfile_state`: source/destination path strings (NULL modelled
as `none`), the two descriptor fields (C `int`s; `-2` is the "unset"
sentinel), the captured source size (the only `struct stat` field the claims
inspect), the stored flags and the debug verbosity.  The unimplemented
`stats`/`callbacks` pointers are omitted. -/
structure copyfile_state where
  src : Option String
  dst : Option String
  src_fd : Int
  dst_fd : Int
  sb_size : Nat
  flags : copyfile_flags_t
  debug : Nat
deriving DecidableEq

/-- A fresh handle as produced by `copyfile_state_alloc`: calloc-zeroed
fields with both descriptors set to the `-2` sentinel. -/
def copyfile_state_alloc : copyfile_state :=
  { src := none, dst := none, src_fd := -2, dst_fd := -2
    sb_size := 0, flags := {}, debug := 0 }

/-! ## Preamble (debug verbosity resolution) -/

/-- Outcome of the `strtol` call on the `COPYFILE_DEBUG` environment value,
after the code has set `errno = 0`.  `ok v` is a performed conversion with
value `v` (as the `uint32_t` cast of the result) and `errno` still `0`;
`noconv` is the no-conversion case, which returns `0` and (on this platform)
sets `errno`.  An out-of-range string returns a clamped nonzero value, so it
behaves like `ok v` with `v` nonzero for the clamp test below. -/
inductive StrtolOutcome where
  | ok (v : Nat)
  | noconv
deriving DecidableEq

/-- The debug-verbosity update of `copyfile_preamble` once the environment
variable has been read: `s->debug = strtol(e, NULL, 0); if (s->debug == 0 &&
errno != 0) s->debug = 1;`.  `env = none` means the variable is absent
(`getenv` returned NULL) and the stored value is untouched. -/
def preamble_debug (prior : Nat) (env : Option StrtolOutcome) : Nat :=
  match env with
  | none => prior
  | some r =>
    let value : Nat := match r with | .ok v => v | .noconv => 0
    let errnoSet : Bool := match r with | .ok _ => false | .noconv => true
    if value = 0 ∧ errnoSet = true then 1 else value

/-- `copyfile_preamble` on an existing handle: reads the verbosity override
only when the DEBUG bit is set, then records the flag bitmask on the
handle.  (Allocation of a missing handle is modelled by starting from
`copyfile_state_alloc`.) -/
def copyfile_preamble (s : copyfile_state) (flags : copyfile_flags_t)
    (env : Option StrtolOutcome) : copyfile_state :=
  let s1 := if flags.debug then { s with debug := preamble_debug s.debug env } else s
  { s1 with flags := flags }

/-! ## Accessor API (`copyfile_state_set`) -/

/-- The `void *thing` argument of `copyfile_state_set`: an untyped pointer
that each switch branch reinterprets, either as an `int` (descriptor
fields) or as a C string (filename fields). -/
structure Ptr where
  asInt : Int
  asStr : String
deriving DecidableEq

/-- The `COPYFILE_STATE_*` field selectors (values from the absent header;
only their identity matters).  `other` stands for any unrecognized selector,
which hits the `default:` branch. -/
inductive CField where
  | src_fd
  | dst_fd
  | src_filename
  | dst_filename
  | other
deriving DecidableEq

/-- `copyfile_state_set`.  A NULL `thing` fails with `EFAULT` before the
switch (so the string-clearing branch of the internal `copyfile_set_string`
macro is unreachable through this API).  The filename branches `strdup` the
new string into the field and touch nothing else — in particular no
descriptor is closed or reset.  Returns the updated state and the C return
value. -/
def copyfile_state_set (s : copyfile_state) (flag : CField) (thing : Option Ptr) :
    copyfile_state × Int :=
  match thing with
  | none => (s, -1)
  | some p =>
    match flag with
    | .src_fd => ({ s with src_fd := p.asInt }, 0)
    | .dst_fd => ({ s with dst_fd := p.asInt }, 0)
    | .src_filename => ({ s with src := some p.asStr }, 0)
    | .dst_filename => ({ s with dst := some p.asStr }, 0)
    | .other => (s, -1)

/-! ## Teardown (`copyfile_close`, `copyfile_state_free`) -/

/-- The descriptors that `copyfile_close` actually closes: `close` is called
on a descriptor only when the corresponding *path string* is non-null and
the descriptor is non-negative (`if (s->src && s->src_fd >= 0) ...`). -/
def copyfile_close_fds (s : copyfile_state) : List Int :=
  (if s.src.isSome ∧ 0 ≤ s.src_fd then [s.src_fd] else [])
    ++ (if s.dst.isSome ∧ 0 ≤ s.dst_fd then [s.dst_fd] else [])

/-- `copyfile_close`: the closed descriptors paired with the return value
(close failures of the destination are not modelled, so the result is 0). -/
def copyfile_close (s : copyfile_state) : List Int × Int :=
  (copyfile_close_fds s, 0)

/-- `copyfile_state_free` on a non-null handle: calls `copyfile_close`, then
releases the strings and the record.  Its observable descriptor effect is
exactly that of `copyfile_close`. -/
def copyfile_state_free (s : copyfile_state) : List Int × Int :=
  copyfile_close s

/-! ## `COPYFILE_SET_FNAME` (internal path assignment of the path-mode entry) -/

/-- The `COPYFILE_SET_FNAME` macro, acting on one (path, descriptor) pair of
the state: a non-null `name` that differs from the stored string (the
`strncmp(..., MAXPATHLEN)` test; modelled paths are shorter than
`MAXPATHLEN`, so this is plain string inequality) closes an open descriptor
(`fd != -2 && fd > -1`) and resets it to `-2`, then the new string is
duplicated into the field.  Returns (stored path, descriptor, closed fds). -/
def COPYFILE_SET_FNAME (name : Option String) (cur : Option String) (fd : Int) :
    Option String × Int × List Int :=
  match name with
  | none => (cur, fd, [])
  | some n =>
    match cur with
    | some c =>
      if ¬(n = c) ∧ fd ≠ -2 ∧ -1 < fd then (some n, -2, [fd])
      else (some n, fd, [])
    | none => (some n, fd, [])

/-! ## Descriptor-mode adoption (`fcopyfile`) -/

/-- The descriptor-handling prefix of `fcopyfile`: negative arguments fail
with `EINVAL` up front; then each caller-supplied descriptor is adopted onto
the handle only when the stored field still holds the `-2` sentinel
(`if (s->src_fd == -2 && src_fd > -1) s->src_fd = src_fd;` and likewise for
the destination).  The returned pair is what the handle holds when `fstat`,
`fchmod` and `copyfile_internal` subsequently run. -/
def fcopyfile_adopt (s : copyfile_state) (src_fd dst_fd : Int) : Option (Int × Int) :=
  if src_fd < 0 ∨ dst_fd < 0 then none
  else
    let sfd := if s.src_fd = -2 ∧ -1 < src_fd then src_fd else s.src_fd
    let dfd := if s.dst_fd = -2 ∧ -1 < dst_fd then dst_fd else s.dst_fd
    some (sfd, dfd)

/-! ## Data transfer (`copyfile_data`) -/

/-- One syscall response of the transfer-loop oracle: the result of one
`read`, `write` or `ftruncate` call.  `readOk k` / `writeOk k` are
non-negative return values; `readErr` / `writeErr` are `-1`. -/
inductive DEvent where
  | readOk (k : Nat)
  | readErr
  | writeOk (k : Nat)
  | writeErr
  | truncOk
  | truncErr
deriving DecidableEq

/-- File contents visible to the transfer loop: the source bytes with the
source offset, and the destination bytes with the destination offset. -/
structure DataFS where
  srcData : List Nat
  srcPos : Nat
  dstData : List Nat
  dstPos : Nat
deriving DecidableEq

/-- Effect of writing `bytes` at offset `pos` of a file holding `data`:
in-place overwrite, extending the file when the write reaches past the end
(the padding term is empty whenever `pos ≤ data.length`, which holds in
every reachable configuration). -/
def overwriteAt (data : List Nat) (pos : Nat) (bytes : List Nat) : List Nat :=
  data.take pos ++ List.replicate (pos - data.length) 0 ++ bytes
    ++ data.drop (pos + bytes.length)

/-- Effect of `ftruncate` to length `n`: shorten, or zero-extend when `n`
exceeds the current length. -/
def truncTo (data : List Nat) (n : Nat) : List Nat :=
  data.take n ++ List.replicate (n - data.length) 0

/-- Control position inside `copyfile_data`'s loops: about to `read`, about
to `write` the pending unwritten bytes `buf` of the current block (the C
code's `left`/`ptr` pair, with `left = buf.length`), or about to
`ftruncate`. -/
inductive DPhase where
  | reading
  | writing (buf : List Nat)
  | truncating
deriving DecidableEq

/-- Result of running `copyfile_data`: `ok` is C return value `0`, `err` is
`-1`, `next` is an intermediate configuration, and `stuck` marks an oracle
response that is impossible for a regular file (or an exhausted oracle). -/
inductive DOut where
  | ok (fs : DataFS)
  | err (fs : DataFS)
  | next (fs : DataFS) (ph : DPhase)
  | stuck
deriving DecidableEq

/-- One syscall step of `copyfile_data`, given the oracle's response `e`.
Faithful points:
* a `read` of `0` is end-of-file and moves to the `ftruncate` call; for a
  regular file it can occur exactly when the offset is at the end, and a
  positive `read` never exceeds the requested block size `bsz` nor the bytes
  remaining — other responses are rejected as `stuck`;
* a `read` of `-1` leaves the loop with `ret` still `0` and jumps to `exit`,
  so `copyfile_data` reports *success* and the `ftruncate` is skipped (the
  `if (nread < 0)` branch only logs a warning and never sets `ret = -1`);
* a `write` of `0` re-enters the write loop unchanged: the stall counter is
  re-initialized (`int loop = 0;`) at every iteration, so `++loop > 5` is
  `1 > 5` and the stall abort is unreachable;
* a positive `write` of `k ≤ left` advances `ptr`/`left`; a `write` of `-1`
  sets `ret = -1` and jumps to `exit`;
* `ftruncate` truncates the destination to the captured source size
  `sbSize`; its failure sets `ret = -1`. -/
def dstep (sbSize bsz : Nat) (fs : DataFS) (ph : DPhase) (e : DEvent) : DOut :=
  match ph, e with
  | .reading, .readOk k =>
    let rem := fs.srcData.length - fs.srcPos
    if k = 0 then
      if rem = 0 then .next fs .truncating else .stuck
    else if k ≤ bsz ∧ k ≤ rem then
      .next { fs with srcPos := fs.srcPos + k } (.writing ((fs.srcData.drop fs.srcPos).take k))
    else .stuck
  | .reading, .readErr => .ok fs
  | .writing buf, .writeOk k =>
    (match buf with
    | [] => .stuck
    | _ :: _ =>
      if k = 0 then .next fs (.writing buf)
      else if k ≤ buf.length then
        let fs1 : DataFS :=
          { fs with dstData := overwriteAt fs.dstData fs.dstPos (buf.take k)
                    dstPos := fs.dstPos + k }
        if k = buf.length then .next fs1 .reading else .next fs1 (.writing (buf.drop k))
      else .stuck)
  | .writing _, .writeErr => .err fs
  | .truncating, .truncOk => .ok { fs with dstData := truncTo fs.dstData sbSize }
  | .truncating, .truncErr => .err fs
  | _, _ => .stuck

/-- Run the transfer machine over the oracle until `copyfile_data` returns. -/
def drun (sbSize bsz : Nat) : List DEvent → DataFS → DPhase → DOut
  | [], _, _ => .stuck
  | e :: tr, fs, ph =>
    match dstep sbSize bsz fs ph e with
    | .next fs1 ph1 => drun sbSize bsz tr fs1 ph1
    | out => out

/-- `copyfile_data`: the block-size choice (`fstatfs`/`st_blksize`) is the
parameter `bsz`, the advisory `F_PREALLOCATE` has no observable effect and
the `malloc` is assumed to succeed; the loops start at the `read` call. -/
def copyfile_data (sbSize bsz : Nat) (fs : DataFS) (tr : List DEvent) : DOut :=
  drun sbSize bsz tr fs .reading

/-! ## Error-recovery coordinator (`copyfile_internal`) -/

/-- `copyfile_stat` applies flags/owner/mode/times best-effort and always
returns `0` (every sub-failure only logs a warning). -/
def copyfile_stat_ret : Int := 0

/-- Observable outcome of `copyfile_internal`: the C return value, whether
`unlink(s->dst)` was attempted, and whether the `copyfile_stat` step ran. -/
structure InternalOut where
  ret : Int
  unlinkAttempted : Bool
  statAttempted : Bool
deriving DecidableEq

/-- `copyfile_internal`, with the result of its `copyfile_data` call
abstracted as `dataRet` (the composed path-mode model below wires the
transfer machine in).  Invalid descriptors fail with `EINVAL`; a failed DATA
step triggers `if (s->dst && unlink(s->dst))` — the removal is attempted
exactly when a destination path is stored, and `unlinkFails` only feeds a
warning, never the return value — and jumps to `exit`, skipping STAT. -/
def copyfile_internal (s : copyfile_state) (flags : copyfile_flags_t)
    (dataRet : Int) (unlinkFails : Bool) : InternalOut :=
  if s.dst_fd < 0 ∨ s.src_fd < 0 then ⟨-1, false, false⟩
  else if flags.data ∧ dataRet < 0 then ⟨dataRet, s.dst.isSome, false⟩
  else if flags.stat then ⟨copyfile_stat_ret, false, true⟩
  else ⟨if flags.data then dataRet else 0, false, false⟩

/-! ## Path-mode filesystem, `copyfile_open`, and the composed `copyfile` -/

/-- Errno values the path-mode model can surface. -/
inductive Errno where
  | eexist
  | enoent
  | einval
deriving DecidableEq

/-- A filesystem of regular files: an association list from path to bytes. -/
structure PathFS where
  files : List (String × List Nat)
deriving DecidableEq

def PathFS.lookup (fs : PathFS) (p : String) : Option (List Nat) :=
  fs.files.lookup p

/-- Store content `c` at path `p` (create or overwrite the entry). -/
def setAssoc : List (String × List Nat) → String → List Nat → List (String × List Nat)
  | [], p, c => [(p, c)]
  | (q, d) :: t, p, c => if q = p then (q, c) :: t else (q, d) :: setAssoc t p c

def PathFS.set (fs : PathFS) (p : String) (c : List Nat) : PathFS :=
  ⟨setAssoc fs.files p c⟩

/-- `remove`/`unlink` of a path (removing nothing when it is absent). -/
def PathFS.remove (fs : PathFS) (p : String) : PathFS :=
  ⟨fs.files.filter (fun x => !(x.1 == p))⟩

/-- Model of `open(2)` as `copyfile_open` uses it on the destination:
`creat` is the presence of `O_CREAT` (always together with `O_EXCL` in the
attempt mode, which is never cleared).  With `O_CREAT|O_EXCL`, an existing
file is `EEXIST` and a missing one is created empty; without them, an
existing file opens (content preserved — no `O_TRUNC`) and a missing one is
`ENOENT`.  The model has no permission bits, so the returned descriptor is
the fixed non-negative `3` (its identity is immaterial in path mode). -/
def fsOpen (fs : PathFS) (p : String) (creat : Bool) : Except Errno (PathFS × Int) :=
  match fs.lookup p with
  | some _ => if creat then .error .eexist else .ok (fs, 3)
  | none => if creat then .ok (fs.set p [], 3) else .error .enoent

/-- `open(src, O_RDONLY)` on the source. -/
def fsOpenRead (fs : PathFS) (p : String) : Except Errno Int :=
  match fs.lookup p with
  | some _ => .ok 3
  | none => .error .enoent

/-- The destination open-retry loop of `copyfile_open` (the `while` around
`open(s->dst, oflags | dsrc, ...)`), for a regular-file source.  On
`EEXIST`: abort when `COPYFILE_EXCL` is set, otherwise clear `O_CREAT` and
retry.  The `EACCES` (chmod-and-retry) and `EISDIR` branches need permission
bits or directories, which this filesystem model cannot produce, so they are
omitted; any other error (`ENOENT`) falls through to failure.  The C loop is
unbounded; `fuel` only makes the model total — two attempts always settle it
here. -/
def open_dst_loop (flags : copyfile_flags_t) (fs : PathFS) (dst : String)
    (creat : Bool) (fuel : Nat) : Option (Except Errno (PathFS × Int)) :=
  match fuel with
  | 0 => none
  | fuel + 1 =>
    match fsOpen fs dst creat with
    | .ok r => some (.ok r)
    | .error .eexist =>
      if flags.excl then some (.error .eexist)
      else open_dst_loop flags fs dst false fuel
    | .error e => some (.error e)

/-- `copyfile_open`, restricted to regular-file sources (the directory
branch `isdir` is not exercised by the claims; every modelled file passes
the `S_IFREG` type check).  Source block: `stat` captures the size, then the
read-only open.  Destination block: the `COPYFILE_UNLINK` removal first
(whose `ENOENT` is ignored and which cannot otherwise fail in the model),
then the retry loop.  Both blocks run only when the path is set and the
descriptor still holds the `-2` sentinel; the final check rejects
still-invalid descriptors with `EINVAL`. -/
def copyfile_open (fs : PathFS) (s : copyfile_state) :
    Option (Except Errno (PathFS × copyfile_state)) :=
  let srcStep : Except Errno copyfile_state :=
    if s.src.isSome ∧ s.src_fd = -2 then
      match fs.lookup (s.src.getD "") with
      | none => .error .enoent
      | some content =>
        match fsOpenRead fs (s.src.getD "") with
        | .error e => .error e
        | .ok fd => .ok { s with src_fd := fd, sb_size := content.length }
    else .ok s
  match srcStep with
  | .error e => some (.error e)
  | .ok s1 =>
    let dstStep : Option (Except Errno (PathFS × copyfile_state)) :=
      if s1.dst.isSome ∧ s1.dst_fd = -2 then
        let dp := s1.dst.getD ""
        let fs1 := if s1.flags.unlink then fs.remove dp else fs
        match open_dst_loop s1.flags fs1 dp true 4 with
        | none => none
        | some (.error e) => some (.error e)
        | some (.ok (fs2, fd)) => some (.ok (fs2, { s1 with dst_fd := fd }))
      else some (.ok (fs, s1))
    match dstStep with
    | none => none
    | some (.error e) => some (.error e)
    | some (.ok (fs2, s2)) =>
      if s2.dst_fd < 0 ∨ s2.src_fd < 0 then some (.error .einval)
      else some (.ok (fs2, s2))

/-- The path-mode entry point `copyfile(src, dst, NULL, flags)` with a
caller-supplied NULL state: preamble allocation, the two
`COPYFILE_SET_FNAME` assignments (no-ops beyond storing on a fresh handle),
`copyfile_open`, then `copyfile_internal` driving the transfer machine over
the oracle `tr` and, on data failure, the `unlink(s->dst)` cleanup.  The
result is `(filesystem, return value, errno when the failing call sets a
modelled one)`; `none` marks a model-level impossibility (exhausted or
invalid oracle). -/
def copyfile (fs : PathFS) (src dst : Option String) (flags : copyfile_flags_t)
    (bsz : Nat) (tr : List DEvent) : Option (PathFS × Int × Option Errno) :=
  if src = none ∧ dst = none then some (fs, -1, some .einval)
  else
    let s0 := copyfile_preamble copyfile_state_alloc flags none
    let r1 := COPYFILE_SET_FNAME src s0.src s0.src_fd
    let r2 := COPYFILE_SET_FNAME dst s0.dst s0.dst_fd
    let s1 := { s0 with src := r1.1, src_fd := r1.2.1, dst := r2.1, dst_fd := r2.2.1 }
    match copyfile_open fs s1 with
    | none => none
    | some (.error e) => some (fs, -1, some e)
    | some (.ok (fs1, s2)) =>
      if s2.dst_fd < 0 ∨ s2.src_fd < 0 then some (fs1, -1, some .einval)
      else if flags.data then
        let sp := s2.src.getD ""
        let dp := s2.dst.getD ""
        let dfs : DataFS :=
          { srcData := (fs1.lookup sp).getD [], srcPos := 0
            dstData := (fs1.lookup dp).getD [], dstPos := 0 }
        match copyfile_data s2.sb_size bsz dfs tr with
        | .ok dfs1 => some (fs1.set dp dfs1.dstData, 0, none)
        | .err dfs1 =>
          let fs2 := (fs1.set dp dfs1.dstData)
          some ((if s2.dst.isSome then fs2.remove dp else fs2), -1, none)
        | _ => none
      else some (fs1, 0, none)

/-! ## Claim theorems -/

/-- C1: the claim — every path-mode DATA copy of a regular file that returns
success leaves the destination byte-for-byte equal to the source and
truncated to the captured length — fails on the code: when the first `read`
on the source reports an error, `copyfile_data`'s read-error branch only
warns (never setting `ret = -1`) and skips the `ftruncate`, so the whole
copy returns `0` while the pre-existing destination `[9,9,9]` is neither
equal to the source `[1,2]` nor truncated to its length. -/
theorem c1_read_error_reports_success_eval :
    copyfile ⟨[("a", [1, 2]), ("b", [9, 9, 9])]⟩ (some "a") (some "b")
        { data := true } 512 [DEvent.readErr]
      = some (⟨[("a", [1, 2]), ("b", [9, 9, 9])]⟩, 0, none)
    ∧ ([9, 9, 9] : List Nat) ≠ [1, 2] := by decide

/-- C2: the claim — five consecutive zero-byte writes are tolerated, after
which the copy aborts with a write-stall error — fails on the code: the
stall counter `int loop = 0;` is declared *inside* the write loop and is
re-initialized at every iteration, so `++loop > 5` never holds.  Here six
consecutive zero-byte writes are followed by a successful write and the
transfer still completes with success instead of aborting. -/
theorem c2_stall_abort_unreachable_eval :
    copyfile_data 1 512 ⟨[5], 0, [], 0⟩
        [DEvent.readOk 1, DEvent.writeOk 0, DEvent.writeOk 0, DEvent.writeOk 0,
         DEvent.writeOk 0, DEvent.writeOk 0, DEvent.writeOk 0, DEvent.writeOk 1,
         DEvent.readOk 0, DEvent.truncOk]
      = DOut.ok ⟨[5], 1, [5], 1⟩ := by decide

/-- C3: the claim — a source read error makes the data-transfer step abort
and the overall copy return a failure — fails on the code: the
`if (nread < 0)` branch of `copyfile_data` jumps to `exit` with `ret` still
`0`, so after one block is copied and the second `read` errors, the whole
path-mode copy returns `0` (success). -/
theorem c3_read_error_returns_zero_eval :
    copyfile ⟨[("s", [7, 8])]⟩ (some "s") (some "d") { data := true } 512
        [DEvent.readOk 1, DEvent.writeOk 1, DEvent.readErr]
      = some (⟨[("s", [7, 8]), ("d", [7])]⟩, 0, none) := by decide

/-- C4 counterexample: with EXCL *and* UNLINK set and an existing
destination `[9]`, the `COPYFILE_UNLINK` removal runs before the
create-exclusive open, so the call succeeds (returns `0`) and replaces the
destination's content with the source's — the claim's "always fails with
AlreadyExists and leaves the destination unmodified" is false as stated. -/
theorem c4_counterexample :
    copyfile ⟨[("a", [1]), ("b", [9])]⟩ (some "a") (some "b")
        { data := true, excl := true, unlink := true } 512
        [DEvent.readOk 1, DEvent.writeOk 1, DEvent.readOk 0, DEvent.truncOk]
      = some (⟨[("a", [1]), ("b", [1])]⟩, 0, none) := by decide

/-- C4 (amended): for every path-mode copy of an existing regular-file
source with EXCL set and UNLINK clear while the destination already exists,
the call fails with AlreadyExists (`EEXIST`) and the filesystem — in
particular the destination's content — is left unmodified, whatever the
other flags and the I/O oracle. -/
theorem c4_excl_no_unlink_fails_eexist (fs : PathFS) (src dst : String)
    (flags : copyfile_flags_t) (bsz : Nat) (tr : List DEvent)
    (csrc cdst : List Nat)
    (hs : fs.lookup src = some csrc) (hd : fs.lookup dst = some cdst)
    (he : flags.excl = true) (hu : flags.unlink = false) :
    copyfile fs (some src) (some dst) flags bsz tr = some (fs, -1, some Errno.eexist) := by
  simp [copyfile, copyfile_preamble, copyfile_state_alloc, COPYFILE_SET_FNAME,
        copyfile_open, fsOpenRead, open_dst_loop, fsOpen, preamble_debug,
        hs, hd, he, hu]

/-- C4 witness: the amended theorem at a concrete filesystem. -/
theorem c4_witness :
    (PathFS.lookup ⟨[("a", [1]), ("b", [9])]⟩ "a" = some [1]
      ∧ PathFS.lookup ⟨[("a", [1]), ("b", [9])]⟩ "b" = some [9])
    ∧ copyfile ⟨[("a", [1]), ("b", [9])]⟩ (some "a") (some "b")
        { data := true, excl := true } 512 []
      = some (⟨[("a", [1]), ("b", [9])]⟩, -1, some Errno.eexist) :=
  ⟨⟨by decide, by decide⟩,
    c4_excl_no_unlink_fails_eexist _ "a" "b" _ 512 [] [1] [9]
      (by decide) (by decide) rfl rfl⟩

/-- C5: whenever the DATA step is requested and the data transfer fails
(returns a negative value), `copyfile_internal` attempts the destination
removal exactly when a destination path is stored on the handle, returns
the data-transfer error unchanged whatever the removal's own outcome
(`unlinkFails` is universally quantified), and never reaches the STAT
step. -/
theorem c5_data_failure_cleanup (s : copyfile_state) (flags : copyfile_flags_t)
    (dataRet : Int) (unlinkFails : Bool)
    (h1 : 0 ≤ s.src_fd) (h2 : 0 ≤ s.dst_fd)
    (hdat : flags.data = true) (hf : dataRet < 0) :
    copyfile_internal s flags dataRet unlinkFails = ⟨dataRet, s.dst.isSome, false⟩ := by
  have hn : ¬(s.dst_fd < 0 ∨ s.src_fd < 0) := by omega
  simp [copyfile_internal, hn, hdat, hf]

/-- C5 witness: concrete failed DATA step on a path-mode handle. -/
theorem c5_witness :
    ((0 : Int) ≤ 3 ∧ (0 : Int) ≤ 4 ∧ (-1 : Int) < 0)
    ∧ copyfile_internal
        { src := some "a", dst := some "b", src_fd := 3, dst_fd := 4,
          sb_size := 0, flags := {}, debug := 0 }
        { data := true, stat := true } (-1) true
      = ⟨-1, true, false⟩ :=
  ⟨⟨by decide, by decide, by decide⟩,
    c5_data_failure_cleanup _ _ _ true (by decide) (by decide) rfl (by decide)⟩

/-- C6 counterexample: a descriptor-mode handle holding open descriptors `3`
and `4` but no path strings — exactly what `fcopyfile` leaves behind —
has *nothing* closed by `copyfile_state_free`, because `copyfile_close`
guards each `close` with the corresponding path being non-null; the claim
that every open descriptor is closed regardless is false. -/
theorem c6_counterexample :
    (copyfile_state_free
        { src := none, dst := none, src_fd := 3, dst_fd := 4,
          sb_size := 0, flags := {}, debug := 0 }).1 = []
    ∧ (0 : Int) ≤ 3 ∧ (0 : Int) ≤ 4 := by decide

/-- C6 (amended): freeing the state handle closes a descriptor exactly when
it is non-negative *and* the corresponding path string is stored on the
handle; descriptor-mode handles that hold no path strings have their open
descriptors left untouched. -/
theorem c6_close_requires_path (s : copyfile_state) (fd : Int) :
    fd ∈ (copyfile_state_free s).1 ↔
      (s.src.isSome ∧ 0 ≤ s.src_fd ∧ fd = s.src_fd)
      ∨ (s.dst.isSome ∧ 0 ≤ s.dst_fd ∧ fd = s.dst_fd) := by
  by_cases h1 : s.src.isSome ∧ 0 ≤ s.src_fd <;>
    by_cases h2 : s.dst.isSome ∧ 0 ≤ s.dst_fd <;>
      simp [copyfile_state_free, copyfile_close, copyfile_close_fds, h1, h2] <;>
        tauto

/-- C7 counterexample: on a handle storing path `"a"` with open descriptor
`3`, the public `copyfile_state_set` of the *differing* path `"b"` stores
the new string but leaves the descriptor field untouched (still `3`, not
closed and not reset to `-2`) — the claim that it closes the associated
open descriptor first is false. -/
theorem c7_counterexample :
    copyfile_state_set
        { src := some "a", dst := none, src_fd := 3, dst_fd := -2,
          sb_size := 0, flags := {}, debug := 0 }
        CField.src_filename (some ⟨0, "b"⟩)
      = ({ src := some "b", dst := none, src_fd := 3, dst_fd := -2, sb_size := 0, flags := {}, debug := 0 }, 0)
    ∧ ("b" : String) ≠ "a" := by decide

/-- C7 (amended): the public set operation on a path field duplicates and
stores the new string and never closes or alters either descriptor, whether
or not the new content differs from the stored path (in particular, storing
an identical string does not close the descriptor); the close-on-changed-
path behaviour belongs to the path-mode entry point's internal
`COPYFILE_SET_FNAME` assignment, not to `copyfile_state_set`. -/
theorem c7_set_path_never_closes (s : copyfile_state) (p : Ptr) :
    copyfile_state_set s CField.src_filename (some p) = ({ s with src := some p.asStr }, 0)
    ∧ copyfile_state_set s CField.dst_filename (some p) = ({ s with dst := some p.asStr }, 0)
    ∧ (copyfile_state_set s CField.src_filename (some p)).1.src_fd = s.src_fd
    ∧ (copyfile_state_set s CField.dst_filename (some p)).1.dst_fd = s.dst_fd :=
  ⟨rfl, rfl, rfl, rfl⟩

/-- C8 counterexample: `copyfile_state_set` with a NULL value on a handle
storing path `"a"` returns `-1` (EFAULT) — not success — and clears
nothing: the stored string survives.  The claim that a null value succeeds
and clears the path is false. -/
theorem c8_counterexample :
    copyfile_state_set
        { src := some "a", dst := none, src_fd := -2, dst_fd := -2,
          sb_size := 0, flags := {}, debug := 0 }
        CField.src_filename none
      = ({ src := some "a", dst := none, src_fd := -2, dst_fd := -2, sb_size := 0, flags := {}, debug := 0 }, -1)
    ∧ (-1 : Int) ≠ 0 := by decide

/-- C8 (amended): the public set operation with a null value fails with
InvalidArgument (`EFAULT`) for every field, leaving the whole handle — path
strings and descriptors — untouched; the clear-and-free branch of the
internal string setter is unreachable through the public API. -/
theorem c8_set_null_fails_efault (s : copyfile_state) (f : CField) :
    copyfile_state_set s f none = (s, -1) := rfl

/-- C9: during preamble initialization with the DEBUG bit set, a present but
unparsable verbosity override stores `1`, and a parsed override stores its
integer value, including `0`. -/
theorem c9_debug_verbosity (s : copyfile_state) (flags : copyfile_flags_t)
    (v : Nat) (hdbg : flags.debug = true) :
    (copyfile_preamble s flags (some (StrtolOutcome.ok v))).debug = v
    ∧ (copyfile_preamble s flags (some StrtolOutcome.noconv)).debug = 1 := by
  simp [copyfile_preamble, preamble_debug, hdbg]

/-- C9 witness: a fresh handle with DEBUG set, for the parsed-zero and the
unparsable cases. -/
theorem c9_witness :
    ({ debug := true } : copyfile_flags_t).debug = true
    ∧ ((copyfile_preamble copyfile_state_alloc { debug := true }
          (some (StrtolOutcome.ok 0))).debug = 0
      ∧ (copyfile_preamble copyfile_state_alloc { debug := true }
          (some StrtolOutcome.noconv)).debug = 1) :=
  ⟨rfl, c9_debug_verbosity copyfile_state_alloc { debug := true } 0 rfl⟩

/-- C10: in descriptor mode, for non-negative arguments, the caller-supplied
descriptor is adopted exactly when the stored field holds the Unset
sentinel `-2`; a handle already holding a descriptor keeps it and the
argument is ignored — while negative arguments are rejected with `EINVAL`
regardless of the handle's state. -/
theorem c10_fd_adoption (s : copyfile_state) (a b : Int)
    (ha : 0 ≤ a) (hb : 0 ≤ b) :
    fcopyfile_adopt s a b
      = some (if s.src_fd = -2 then a else s.src_fd,
              if s.dst_fd = -2 then b else s.dst_fd)
    ∧ (∀ c d : Int, c < 0 ∨ d < 0 → fcopyfile_adopt s c d = none) := by
  constructor
  · have hna : ¬(a < 0 ∨ b < 0) := by omega
    have hpa : (-1 : Int) < a := by omega
    have hpb : (-1 : Int) < b := by omega
    by_cases hsrc : s.src_fd = -2 <;> by_cases hdst : s.dst_fd = -2 <;>
      simp [fcopyfile_adopt, hna, hpa, hpb, hsrc, hdst]
  · intro c d h
    unfold fcopyfile_adopt
    rw [if_pos h]

/-- C10 witness: a handle that already holds source descriptor `7` keeps it
and ignores the argument `0`, while the unset destination adopts `1`. -/
theorem c10_witness :
    ((0 : Int) ≤ 0 ∧ (0 : Int) ≤ 1)
    ∧ fcopyfile_adopt
        { src := none, dst := none, src_fd := 7, dst_fd := -2,
          sb_size := 0, flags := {}, debug := 0 } 0 1
      = some (7, 1) :=
  ⟨⟨by decide, by decide⟩,
    (c10_fd_adoption
      { src := none, dst := none, src_fd := 7, dst_fd := -2,
        sb_size := 0, flags := {}, debug := 0 } 0 1 (by decide) (by decide)).1⟩
